import Mathlib

/-!
Shallow embedding of `drivers/gpu/drm/i915/gem/i915_gem_mman.c`
(mapping-offset registry, fault resolvers, swap policy, revocation).

Machine integers are modelled as `Nat`/`Int`; where the C code narrows to
`unsigned int` (`min_t(unsigned int, ...)`, assignment of `roundup` to an
`unsigned int` parameter) the embedding takes the value `% 2^32`.
External collaborators (locking, page pinning, aperture binding, fence
registers, the DRM vma-offset allocator, migration) are modelled as
oracle environments: each fallible call's result is an input, and the
embedding reproduces the C control flow over those results.
-/

namespace I915Mman

def PAGE_SHIFT : Nat := 12

def PAGE_SIZE : Nat := 4096

def MIN_CHUNK_PAGES : Nat := 2 ^ 20 >>> PAGE_SHIFT

/-! ### errno values (positive magnitudes; the code uses their negations) -/

def eIntr : Int := 4

def eIo : Int := 5

def eNxIo : Int := 6

def e2Big : Int := 7

def eAgain : Int := 11

def eNoMem : Int := 12

def eAcces : Int := 13

def eFault : Int := 14

def eBusy : Int := 16

def eNoDev : Int := 19

def eInval : Int := 22

def eNoSpc : Int := 28

def eDeadLk : Int := 35

def eRestartSys : Int := 512

/-! ### Fault outcome translation (`i915_error_to_vmf_fault`) -/

inductive VmFaultT where
  | nopage
  | oom
  | sigbus
deriving DecidableEq

/-- Result of translating an internal error to a fault outcome, together
with whether the `WARN_ONCE` diagnostic on the `default:` branch fired. -/
structure VmfTrans where
  fault : VmFaultT
  warned : Bool
deriving DecidableEq

/-- `i915_error_to_vmf_fault`: the C `switch (err)`.  The case lists are
disjoint, so encoding the switch as an if-chain is exact; the `default:`
branch warns (for nonzero `err`) and falls through to `VM_FAULT_SIGBUS`. -/
def i915_error_to_vmf_fault (err : Int) : VmfTrans :=
  if err = -eIo ∨ err = -eFault ∨ err = -eNoDev ∨ err = -eNxIo ∨ err = -e2Big then
    ⟨.sigbus, false⟩
  else if err = -eNoMem then
    ⟨.oom, false⟩
  else if err = 0 ∨ err = -eAgain ∨ err = -eNoSpc ∨ err = -eRestartSys ∨
      err = -eIntr ∨ err = -eBusy then
    ⟨.nopage, false⟩
  else
    ⟨.sigbus, true⟩

/-! ### Mapping registry (`struct i915_mmap_offset`, rb-tree keyed by type) -/

inductive MmapType where
  | gtt
  | wc
  | wb
  | uc
deriving DecidableEq

/-- A mapping record: its kind and the offset of its region in the global
vma address space (`drm_vma_node_offset_addr`). -/
structure Mmo where
  mmap_type : MmapType
  offset : Nat
deriving DecidableEq

/-- `lookup_mmo`: search the per-object registry for a record of the given
kind.  The rb-tree ordered by `mmap_type` is modelled as a list with
linear search; only the found-or-not outcome is observable. -/
def lookup_mmo : List Mmo → MmapType → Option Mmo
  | [], _ => none
  | m :: rest, t => if m.mmap_type = t then some m else lookup_mmo rest t

/-- Result of `insert_mmo`: the record returned to the caller, the registry
after the call, and whether the caller's freshly allocated offset region
was discarded (`drm_vma_offset_remove` + `kfree` on the losing record). -/
structure InsertResult where
  ret : Mmo
  offsets : List Mmo
  freedFresh : Bool
deriving DecidableEq

/-- `insert_mmo`: under the registry lock, if a record of the same kind is
already present return it and free the caller's record and its region;
otherwise link the caller's record into the tree. -/
def insert_mmo (offsets : List Mmo) (mmo : Mmo) : InsertResult :=
  match lookup_mmo offsets mmo.mmap_type with
  | some pos => ⟨pos, offsets, true⟩
  | none => ⟨mmo, offsets ++ [mmo], false⟩

/-- At most one record per kind (the registry invariant). -/
def uniqueKinds (offsets : List Mmo) : Prop :=
  offsets.Pairwise (fun a b => a.mmap_type ≠ b.mmap_type)

/-! ### `i915_gem_mmap_offset_attach` -/

/-- Oracle for the external calls made by `i915_gem_mmap_offset_attach`:
`kmalloc`, the two `drm_vma_offset_add` attempts (an offset on success),
and `vma_node_allow_once`. -/
structure AttachEnv where
  kmallocOk : Bool
  alloc1 : Except Int Nat
  alloc2 : Except Int Nat
  allowErr : Int

structure AttachResult where
  res : Except Int Mmo
  offsets : List Mmo
  reclaims : Nat
  allocCalls : Nat
  freedFresh : Bool

/-- The `insert:`/`out:` tail of `i915_gem_mmap_offset_attach`: commit the
new record through `insert_mmo`, then (with a file) add the requester to
the node's allow-list. -/
def attach_commit (offsets : List Mmo) (t : MmapType) (hasFile : Bool)
    (env : AttachEnv) (off reclaims allocCalls : Nat) : AttachResult :=
  let r := insert_mmo offsets ⟨t, off⟩
  if hasFile ∧ env.allowErr ≠ 0 then
    ⟨.error env.allowErr, r.offsets, reclaims, allocCalls, r.freedFresh⟩
  else
    ⟨.ok r.ret, r.offsets, reclaims, allocCalls, r.freedFresh⟩

/-- `i915_gem_mmap_offset_attach`: look up an existing record; otherwise
allocate a region (`drm_vma_offset_add`), on failure reap dead objects
(`intel_gt_retire_requests` + `i915_gem_drain_freed_objects`, counted in
`reclaims`) and retry the allocation exactly once, then commit. -/
def i915_gem_mmap_offset_attach (offsets : List Mmo) (t : MmapType)
    (hasFile : Bool) (env : AttachEnv) : AttachResult :=
  match lookup_mmo offsets t with
  | some mmo =>
    if hasFile ∧ env.allowErr ≠ 0 then
      ⟨.error env.allowErr, offsets, 0, 0, false⟩
    else
      ⟨.ok mmo, offsets, 0, 0, false⟩
  | none =>
    if ¬env.kmallocOk then
      ⟨.error (-eNoMem), offsets, 0, 0, false⟩
    else
      match env.alloc1 with
      | .ok off => attach_commit offsets t hasFile env off 0 1
      | .error _ =>
        match env.alloc2 with
        | .ok off => attach_commit offsets t hasFile env off 1 2
        | .error e2 => ⟨.error e2, offsets, 1, 2, false⟩

/-! ### Partial views (`compute_partial_view`) -/

/-- Kernel `roundup(x, y)`: `((x + y - 1) / y) * y`. -/
def roundup (x y : Nat) : Nat := (x + y - 1) / y * y

/-- Kernel `rounddown(x, y)`: `x - (x % y)`. -/
def rounddown (x y : Nat) : Nat := x - x % y

inductive GgttViewType where
  | normal
  | windowed
deriving DecidableEq

/-- `struct i915_ggtt_view` as used here: the type tag and (for a windowed
view, `I915_GGTT_VIEW_PARTIAL`) the page offset and size of the window. -/
structure GgttView where
  vtype : GgttViewType
  vofs : Nat
  vsize : Nat
deriving DecidableEq

/-- The object attributes `compute_partial_view` reads: byte size, whether
it is tiled, and `tile_row_pages` (`get_tile_row_size >> PAGE_SHIFT`). -/
structure TiledObj where
  sizeBytes : Nat
  tiled : Bool
  tileRowPages : Nat
deriving DecidableEq

/-- The chunk after tiling adjustment: `chunk = roundup(chunk,
tile_row_pages(obj) ?: 1)` assigned back to an `unsigned int`. -/
def effective_chunk (obj : TiledObj) (chunk : Nat) : Nat :=
  if obj.tiled then
    roundup chunk (if obj.tileRowPages = 0 then 1 else obj.tileRowPages) % 2 ^ 32
  else chunk

/-- `compute_partial_view`: window of `chunk` pages (rounded up to the tile
row for tiled objects) containing `page_offset`, clipped to the object's
page count with a `min_t(unsigned int, ...)`; degenerates to a NORMAL
view when the chunk covers the whole object. -/
def compute_partial_view (obj : TiledObj) (page_offset chunk : Nat) : GgttView :=
  let chunk := effective_chunk obj chunk
  let npages := obj.sizeBytes >>> PAGE_SHIFT
  let vofs := rounddown page_offset chunk
  let vsize := min chunk ((npages - vofs) % 2 ^ 32)
  { vtype := if npages ≤ chunk then .normal else .windowed
    vofs := vofs
    vsize := vsize }

/-! ### Swap/migration policy (`create_swapto`, `use_swapto`) -/

inductive Madv where
  | willneed
  | dontneed
  | purged
deriving DecidableEq

/-- Compile-time configuration read by the swap policy. -/
structure SwapCfg where
  chickenMmapSwapCreate : Bool
  chickenMmapSwap : Bool
  hasFlatCcs : Bool
  gtWedged : Bool
deriving DecidableEq

/-- A shadow (shmem-backed) object as produced by `create_swapto`. -/
structure SwapShadow where
  size : Nat
  madv : Madv
  cpuClear : Bool
  sharesResv : Bool
deriving DecidableEq

/-- The object attributes the swap policy reads, plus its `swapto` link. -/
structure SwapObj where
  size : Nat
  isLmem : Bool
  hasPages : Bool
  madv : Madv
  regionAvail : Nat
  swapto : Option SwapShadow
deriving DecidableEq

/-- Result of the policy: the object after the call (with `swapto`
possibly installed) and the shadow if the returned target is a shadow
rather than the object itself. -/
structure SwapResult where
  obj : SwapObj
  shadow : Option SwapShadow
deriving DecidableEq

/-- `create_swapto`: create a shmem shadow for a device-local object with
no resident pages that is not purged, unless a write still fits double
the object's size inside the home region's free budget
(`write && 2 * size < avail` prefers writing directly to lmem); with
flat CCS on an unwedged GT the shadow is inflated by `size >> 8`.
`shmemOk` is the oracle outcome of `i915_gem_object_create_shmem`. -/
def create_swapto (cfg : SwapCfg) (obj : SwapObj) (write : Bool)
    (shmemOk : Bool) : SwapResult :=
  if ¬cfg.chickenMmapSwapCreate then ⟨obj, none⟩
  else if ¬obj.isLmem then ⟨obj, none⟩
  else if obj.hasPages ∨ obj.madv = .purged then ⟨obj, none⟩
  else if write ∧ 2 * obj.size < obj.regionAvail then ⟨obj, none⟩
  else
    let size :=
      if cfg.hasFlatCcs ∧ ¬cfg.gtWedged then obj.size + obj.size >>> 8
      else obj.size
    if ¬shmemOk then ⟨obj, none⟩
    else
      let swp : SwapShadow := ⟨size, .willneed, true, true⟩
      ⟨{ obj with swapto := some swp }, some swp⟩

/-- `use_swapto`: prefer an existing shadow still marked WILLNEED, else
fall back to `create_swapto`. -/
def use_swapto (cfg : SwapCfg) (obj : SwapObj) (write : Bool)
    (shmemOk : Bool) : SwapResult :=
  if ¬cfg.chickenMmapSwap then ⟨obj, none⟩
  else
    match obj.swapto with
    | some swp =>
      if swp.madv = .willneed then ⟨obj, some swp⟩
      else create_swapto cfg obj write shmemOk
    | none => create_swapto cfg obj write shmemOk

/-! ### GTT mapping revocation (`i915_gem_object_release_mmap_gtt`) -/

/-- The aperture bookkeeping of one object: the userfault flag of each of
its GGTT vmas, `obj->userfault_count`, and whether the object sits on the
device-wide `userfault_list`. -/
structure GttMapState where
  vmas : List Bool
  userfault_count : Nat
  onList : Bool
deriving DecidableEq

/-- Modelled from the spec: `i915_vma_revoke_mmap` (defined in
`i915_vma.c`, outside the provided source) invalidates one vma's user
mapping; per the revocation protocol it clears the vma's userfault flag,
decrements the object's userfault counter, and removes the object from
the device-wide revocation list when the counter reaches zero.  The state
threaded here is `(userfault_count, onList)`. -/
def i915_vma_revoke_mmap (st : Nat × Bool) (flag : Bool) : Nat × Bool :=
  if flag then
    let c := st.1 - 1
    (c, if c = 0 then false else st.2)
  else st

/-- `__i915_gem_object_release_mmap_gtt`: revoke the mapping of every GGTT
vma of the object (`for_each_ggtt_vma`). -/
def i915_gem_object_release_mmap_gtt_locked (st : GttMapState) : GttMapState :=
  let r := st.vmas.foldl i915_vma_revoke_mmap (st.userfault_count, st.onList)
  ⟨st.vmas.map (fun _ => false), r.1, r.2⟩

/-- `i915_gem_object_release_mmap_gtt`: under the GGTT mutex and a runtime
PM wakeref, return immediately when `userfault_count` is zero, else
revoke all GGTT vma mappings. -/
def i915_gem_object_release_mmap_gtt (st : GttMapState) : GttMapState :=
  if st.userfault_count = 0 then st
  else i915_gem_object_release_mmap_gtt_locked st

/-! ### Generic record teardown (`i915_gem_object_release_mmap_offset`) -/

/-- `i915_gem_object_release_mmap_offset`: walk the registry and unmap the
range of every record, skipping Aperture/GTT records (`continue` on
`I915_MMAP_TYPE_GTT`); a segment object without a parent unmaps nothing.
The result is the list of records whose ranges were unmapped. -/
def i915_gem_object_release_mmap_offset (isSegment hasParent : Bool)
    (offsets : List Mmo) : List Mmo :=
  if isSegment ∧ ¬hasParent then []
  else offsets.filter (fun m => ¬m.mmap_type = MmapType.gtt)

/-- `i915_gem_object_release_mmap`: GTT revocation followed by generic
record teardown.  Returns the aperture state after revocation and the
records unmapped by the generic teardown. -/
def i915_gem_object_release_mmap (st : GttMapState) (offsets : List Mmo) :
    GttMapState × List Mmo :=
  (i915_gem_object_release_mmap_gtt st,
   i915_gem_object_release_mmap_offset false false offsets)

/-! ### Direct fault resolver (`vm_fault_cpu`) -/

/-- The object attributes the fault resolvers read directly. -/
structure FaultObj where
  readonly : Bool
  hasSegments : Bool
  cacheNone : Bool
deriving DecidableEq

/-- Oracle for one iteration of the `for_i915_gem_ww` body in
`vm_fault_cpu`: the lock result, the migration policy's verdict
(`i915_gem_object_should_migrate_smem` with its `required` out-param),
whether the target's pages are pinned, and the results of
`i915_gem_object_migrate_to_smem`, `i915_gem_object_pin_pages_sync` and
`remap_io_sg`. -/
structure CpuEnv where
  lockErr : Int
  shouldMigrate : Bool
  migRequired : Bool
  pagesPinned : Bool
  migrateErr : Int
  pinPagesErr : Int
  remapErr : Int

/-- Observable side effects of the direct resolver: whether page pinning
was attempted, whether `remap_io_sg` populated PTEs, and whether a
migration to SMEM completed. -/
structure CpuEffects where
  pinAttempted : Bool
  remapped : Bool
  migrated : Bool
deriving DecidableEq

def CpuEffects.none : CpuEffects := ⟨false, false, false⟩

def CpuEffects.merge (a b : CpuEffects) : CpuEffects :=
  ⟨a.pinAttempted || b.pinAttempted, a.remapped || b.remapped,
   a.migrated || b.migrated⟩

/-- The pin-and-populate tail of the `vm_fault_cpu` loop body:
`i915_gem_object_pin_pages_sync`, then `remap_io_sg`, then unpin. -/
def vm_fault_cpu_tail (e : CpuEnv) (migrated : Bool) : Int × CpuEffects :=
  if e.pinPagesErr ≠ 0 then
    (e.pinPagesErr, ⟨true, false, migrated⟩)
  else
    (e.remapErr, ⟨true, e.remapErr = 0, migrated⟩)

/-- One iteration of the `for_i915_gem_ww` body of `vm_fault_cpu`: lock
the object, choose the target through `use_swapto`, apply the implicit
SMEM-migration policy (pinned pages make a required migration fail with
`-EFAULT`; a failed optional migration is discarded, `err = 0`), then
pin pages and populate the PTEs. -/
def vm_fault_cpu_body (cfg : SwapCfg) (sobj : SwapObj) (write shmemOk : Bool)
    (e : CpuEnv) : Int × CpuEffects :=
  if e.lockErr ≠ 0 then (e.lockErr, CpuEffects.none)
  else
    let _pg := use_swapto cfg sobj write shmemOk
    if e.shouldMigrate then
      let err := if e.pagesPinned then -eFault else e.migrateErr
      if err ≠ 0 ∧ e.migRequired then (err, CpuEffects.none)
      else if err = -eDeadLk then (err, CpuEffects.none)
      else vm_fault_cpu_tail e (¬e.pagesPinned ∧ e.migrateErr = 0)
    else vm_fault_cpu_tail e false

/-- The `for_i915_gem_ww` driver: rerun the body while it ends in
`-EDEADLK` (after a successful ww backoff); the environment list is the
retry fuel, and an exhausted list reports the pending `-EDEADLK`. -/
def vm_fault_cpu_ww (cfg : SwapCfg) (sobj : SwapObj) (write shmemOk : Bool) :
    List CpuEnv → Int × CpuEffects
  | [] => (-eDeadLk, CpuEffects.none)
  | e :: rest =>
    let r := vm_fault_cpu_body cfg sobj write shmemOk e
    if r.1 = -eDeadLk then
      let r2 := vm_fault_cpu_ww cfg sobj write shmemOk rest
      (r2.1, r.2.merge r2.2)
    else r

/-- The outer `do { ... } while (err == -ENXIO || err == -ENOMEM)` retry
around the ww transaction; each element of the outer list is the oracle
for one whole ww transaction. -/
def vm_fault_cpu_retry (cfg : SwapCfg) (sobj : SwapObj)
    (write shmemOk : Bool) : List (List CpuEnv) → Int × CpuEffects
  | [] => (0, CpuEffects.none)
  | envs :: rest =>
    let r := vm_fault_cpu_ww cfg sobj write shmemOk envs
    if r.1 = -eNxIo ∨ r.1 = -eNoMem then
      match rest with
      | [] => r
      | _ :: _ =>
        let r2 := vm_fault_cpu_retry cfg sobj write shmemOk rest
        (r2.1, r.2.merge r2.2)
    else r

/-- `vm_fault_cpu`: reject a write fault on a read-only object outright
(`VM_FAULT_SIGBUS` before any other step), bail out while lmem mmaps are
being invalidated, resolve the owning segment for segmented objects
(`SIGBUS` when none covers the fault), then run the locked
migrate/pin/populate transaction and translate its error. -/
def vm_fault_cpu (obj : FaultObj) (write invalidateLmem segmentFound : Bool)
    (cfg : SwapCfg) (sobj : SwapObj) (shmemOk : Bool)
    (envss : List (List CpuEnv)) : VmfTrans × CpuEffects :=
  if obj.readonly ∧ write then (⟨.sigbus, false⟩, CpuEffects.none)
  else if invalidateLmem then (⟨.sigbus, false⟩, CpuEffects.none)
  else if obj.hasSegments ∧ ¬segmentFound then (⟨.sigbus, false⟩, CpuEffects.none)
  else
    let r := vm_fault_cpu_retry cfg sobj write shmemOk envss
    (i915_error_to_vmf_fault r.1, r.2)

/-! ### Aperture fault resolver (`vm_fault_gtt`) -/

/-- Oracle for one `retry:` iteration of `vm_fault_gtt`: results of the
object lock, page pinning, the reset-exclusion lock, the three
`i915_gem_object_ggtt_pin_ww` attempts (0 = a vma was pinned), the fence
wait, `remap_io_mapping`, the ww backoff, and whether the pinned vma
already had its userfault flag set. -/
structure GttEnv where
  lockErr : Int
  pinPagesErr : Int
  resetLockErr : Int
  pin1Err : Int
  pin2Err : Int
  pin3Err : Int
  fenceErr : Int
  remapErr : Int
  backoffErr : Int
  vmaWasUserfault : Bool

/-- Observable side effects of the aperture resolver. -/
structure GttEffects where
  pinAttempted : Bool
  bound : Bool
  remapped : Bool
deriving DecidableEq

def GttEffects.none : GttEffects := ⟨false, false, false⟩

def GttEffects.merge (a b : GttEffects) : GttEffects :=
  ⟨a.pinAttempted || b.pinAttempted, a.bound || b.bound,
   a.remapped || b.remapped⟩

/-- The binding cascade of `vm_fault_gtt`: full-object pin
(`PIN_MAPPABLE | PIN_NONBLOCK | PIN_NOEVICT`); unless it failed with
`-EDEADLK`, retry with the partial view (`PIN_MAPPABLE | PIN_NOSEARCH`),
then with `PIN_MAPPABLE` alone. -/
def vm_fault_gtt_pin (e : GttEnv) : Int :=
  if e.pin1Err = 0 then 0
  else if e.pin1Err = -eDeadLk then -eDeadLk
  else if e.pin2Err = 0 then 0
  else if e.pin2Err = -eDeadLk then -eDeadLk
  else e.pin3Err

/-- One `retry:` iteration of `vm_fault_gtt` over the userfault state
`(userfault_count, onList)`: lock, read-only check, pin pages, reset
exclusion, the binding cascade, the snoop-coherency check, fence wait,
remap, then userfault bookkeeping
(`if (!i915_vma_set_userfault(vma) && !obj->userfault_count++)
list_add(...)`). -/
def vm_fault_gtt_body (obj : FaultObj) (write hasLLC : Bool)
    (st : Nat × Bool) (e : GttEnv) : Int × GttEffects × (Nat × Bool) :=
  if e.lockErr ≠ 0 then (e.lockErr, GttEffects.none, st)
  else if obj.readonly ∧ write then (-eFault, GttEffects.none, st)
  else if e.pinPagesErr ≠ 0 then (e.pinPagesErr, ⟨true, false, false⟩, st)
  else if e.resetLockErr ≠ 0 then (e.resetLockErr, ⟨true, false, false⟩, st)
  else
    let pinErr := vm_fault_gtt_pin e
    if pinErr ≠ 0 then (pinErr, ⟨true, false, false⟩, st)
    else if ¬(obj.cacheNone ∨ hasLLC) then (-eFault, ⟨true, true, false⟩, st)
    else if e.fenceErr ≠ 0 then (e.fenceErr, ⟨true, true, false⟩, st)
    else if e.remapErr ≠ 0 then (e.remapErr, ⟨true, true, false⟩, st)
    else if ¬e.vmaWasUserfault then
      (0, ⟨true, true, true⟩, (st.1 + 1, st.2 || decide (st.1 = 0)))
    else (0, ⟨true, true, true⟩, st)

/-- The `goto retry` driver of `vm_fault_gtt`: on `-EDEADLK` run the ww
backoff and retry; any other result ends the loop.  The environment list
is the retry fuel. -/
def vm_fault_gtt_loop (obj : FaultObj) (write hasLLC : Bool) :
    Nat × Bool → List GttEnv → Int × GttEffects × (Nat × Bool)
  | st, [] => (-eDeadLk, GttEffects.none, st)
  | st, e :: rest =>
    let r := vm_fault_gtt_body obj write hasLLC st e
    if r.1 = -eDeadLk then
      if e.backoffErr = 0 then
        let r2 := vm_fault_gtt_loop obj write hasLLC r.2.2 rest
        (r2.1, r.2.1.merge r2.2.1, r2.2.2)
      else (e.backoffErr, r.2.1, r.2.2)
    else r

/-- `vm_fault_gtt`: run the retry loop and translate the final error into
a fault outcome. -/
def vm_fault_gtt (obj : FaultObj) (write hasLLC : Bool) (st : Nat × Bool)
    (envs : List GttEnv) : VmfTrans × GttEffects × (Nat × Bool) :=
  let r := vm_fault_gtt_loop obj write hasLLC st envs
  (i915_error_to_vmf_fault r.1, r.2.1, r.2.2)

/-! ### Helper lemmas -/

theorem lookup_mmo_eq_none (offsets : List Mmo) (t : MmapType) :
    lookup_mmo offsets t = none ↔ ∀ m ∈ offsets, m.mmap_type ≠ t := by
  induction offsets with
  | nil => simp [lookup_mmo]
  | cons m rest ih => by_cases hm : m.mmap_type = t <;> simp [lookup_mmo, hm, ih]

theorem lookup_mmo_append_none (offsets : List Mmo) (a : Mmo) (t : MmapType)
    (h : lookup_mmo offsets t = none) :
    lookup_mmo (offsets ++ [a]) t = if a.mmap_type = t then some a else none := by
  induction offsets with
  | nil => simp [lookup_mmo]
  | cons m rest ih =>
    by_cases hm : m.mmap_type = t
    · simp [lookup_mmo, hm] at h
    · simp only [lookup_mmo, hm, if_false, List.cons_append] at h ⊢
      exact ih h

theorem uniqueKinds_append (offsets : List Mmo) (a : Mmo)
    (hu : uniqueKinds offsets) (h : lookup_mmo offsets a.mmap_type = none) :
    uniqueKinds (offsets ++ [a]) := by
  unfold uniqueKinds at hu ⊢
  rw [List.pairwise_append]
  refine ⟨hu, List.pairwise_singleton _ _, ?_⟩
  intro x hx y hy
  simp only [List.mem_singleton] at hy
  rw [hy]
  exact (lookup_mmo_eq_none offsets a.mmap_type).1 h x hx

theorem roundup_le_add (x y : Nat) : roundup x y ≤ x + y - 1 :=
  Nat.div_mul_le_self _ _

theorem le_roundup (x y : Nat) (hy : 0 < y) : x ≤ roundup x y := by
  unfold roundup
  have he := Nat.div_add_mod' (x + y - 1) y
  have hm : (x + y - 1) % y < y := Nat.mod_lt _ hy
  omega

theorem roundup_mod (x y : Nat) : roundup x y % y = 0 :=
  Nat.mul_mod_left _ _

theorem rounddown_mod (x y : Nat) : rounddown x y % y = 0 := by
  unfold rounddown
  have he := Nat.div_add_mod' x y
  have hx : x - x % y = x / y * y := by omega
  rw [hx]
  exact Nat.mul_mod_left _ _

theorem effective_chunk_facts (obj : TiledObj) (c : Nat) (hc : 0 < c)
    (hc32 : c < 2 ^ 31) (ht : obj.tileRowPages < 2 ^ 31) :
    0 < effective_chunk obj c ∧ effective_chunk obj c < 2 ^ 32 ∧
    (obj.tiled = true → effective_chunk obj c %
      (if obj.tileRowPages = 0 then 1 else obj.tileRowPages) = 0) := by
  unfold effective_chunk
  by_cases hT : obj.tiled = true
  · simp only [hT, if_true]
    set r := if obj.tileRowPages = 0 then 1 else obj.tileRowPages with hr
    have hrpos : 0 < r := by rw [hr]; split <;> omega
    have hr32 : r < 2 ^ 31 := by rw [hr]; split <;> omega
    have h1 : c ≤ roundup c r := le_roundup c r hrpos
    have h2 : roundup c r ≤ c + r - 1 := roundup_le_add c r
    have h32 : roundup c r < 2 ^ 32 := by omega
    rw [Nat.mod_eq_of_lt h32]
    exact ⟨by omega, by omega, fun _ => roundup_mod c r⟩
  · rw [Bool.not_eq_true] at hT
    rw [hT]
    refine ⟨hc, ?_, fun h => Bool.noConfusion h⟩
    show c < 2 ^ 32
    omega

/-- Unfolding of `compute_partial_view` through `effective_chunk`. -/
theorem compute_partial_view_eq (obj : TiledObj) (p c : Nat) :
    compute_partial_view obj p c =
      ⟨if obj.sizeBytes >>> PAGE_SHIFT ≤ effective_chunk obj c then .normal
          else .windowed,
       rounddown p (effective_chunk obj c),
       min (effective_chunk obj c)
         ((obj.sizeBytes >>> PAGE_SHIFT - rounddown p (effective_chunk obj c)) %
           2 ^ 32)⟩ := rfl

/-! ### Claim theorems -/

/-- C1: at most one mapping record per (object, kind) ever becomes
visible: with no record of kind `a.mmap_type` present, the first
committer `a` links its record, the registry invariant (one record per
kind) still holds, and a second committer `b` of the same kind adopts
the winner's record `a` — observing the winner's offset — while its own
freshly allocated region is discarded and the registry is unchanged. -/
theorem insert_mmo_at_most_one
    (offsets : List Mmo) (a b : Mmo)
    (hu : uniqueKinds offsets)
    (hk : b.mmap_type = a.mmap_type)
    (hnone : lookup_mmo offsets a.mmap_type = none) :
    insert_mmo offsets a = ⟨a, offsets ++ [a], false⟩ ∧
    uniqueKinds (offsets ++ [a]) ∧
    insert_mmo (offsets ++ [a]) b = ⟨a, offsets ++ [a], true⟩ := by
  have h1 : insert_mmo offsets a = ⟨a, offsets ++ [a], false⟩ := by
    unfold insert_mmo
    rw [hnone]
  have h3 : lookup_mmo (offsets ++ [a]) b.mmap_type = some a := by
    rw [hk, lookup_mmo_append_none offsets a _ hnone]
    simp
  refine ⟨h1, uniqueKinds_append offsets a hu hnone, ?_⟩
  unfold insert_mmo
  rw [h3]

/-- Witness for C1: two committers of kind WriteBack on an empty
registry; the second adopts the first record and offset 100. -/
theorem insert_mmo_at_most_one_witness :
    insert_mmo [] ⟨.wb, 100⟩ = ⟨⟨.wb, 100⟩, [⟨.wb, 100⟩], false⟩ ∧
    uniqueKinds [⟨MmapType.wb, 100⟩] ∧
    insert_mmo [⟨.wb, 100⟩] ⟨.wb, 200⟩ = ⟨⟨.wb, 100⟩, [⟨.wb, 100⟩], true⟩ := by
  have h := insert_mmo_at_most_one [] ⟨.wb, 100⟩ ⟨.wb, 200⟩
    (by simp [uniqueKinds]) rfl rfl
  simpa using h

/-- C5: the fault-path error translation is total onto the three
outcomes: `-ENOMEM` goes to the out-of-memory outcome; the fatal-access
errors `-EIO, -EFAULT, -ENODEV, -ENXIO, -E2BIG` go to the bus-error
outcome; success and the transient errors
`0, -EAGAIN, -ENOSPC, -ERESTARTSYS, -EINTR, -EBUSY` go to the
silently-retryable no-page outcome; every other value goes to the
bus-error outcome with the diagnostic warning. -/
theorem i915_error_to_vmf_fault_total (err : Int) :
    ((i915_error_to_vmf_fault err).fault = .nopage ∨
     (i915_error_to_vmf_fault err).fault = .oom ∨
     (i915_error_to_vmf_fault err).fault = .sigbus) ∧
    (err = -eNoMem → i915_error_to_vmf_fault err = ⟨.oom, false⟩) ∧
    ((err = -eIo ∨ err = -eFault ∨ err = -eNoDev ∨ err = -eNxIo ∨ err = -e2Big) →
      i915_error_to_vmf_fault err = ⟨.sigbus, false⟩) ∧
    ((err = 0 ∨ err = -eAgain ∨ err = -eNoSpc ∨ err = -eRestartSys ∨
        err = -eIntr ∨ err = -eBusy) →
      i915_error_to_vmf_fault err = ⟨.nopage, false⟩) ∧
    (err ≠ -eNoMem →
      ¬(err = -eIo ∨ err = -eFault ∨ err = -eNoDev ∨ err = -eNxIo ∨ err = -e2Big) →
      ¬(err = 0 ∨ err = -eAgain ∨ err = -eNoSpc ∨ err = -eRestartSys ∨
          err = -eIntr ∨ err = -eBusy) →
      i915_error_to_vmf_fault err = ⟨.sigbus, true⟩) := by
  refine ⟨?_, ?_, ?_, ?_, ?_⟩
  · unfold i915_error_to_vmf_fault
    split_ifs <;> simp
  · intro h
    subst h
    decide
  · intro h
    rcases h with h | h | h | h | h <;> subst h <;> decide
  · intro h
    rcases h with h | h | h | h | h | h <;> subst h <;> decide
  · intro hm hs hn
    unfold i915_error_to_vmf_fault
    rw [if_neg hs, if_neg hm, if_neg hn]

/-- Witness for C5 at `-ENOMEM`. -/
theorem i915_error_to_vmf_fault_total_witness :
    i915_error_to_vmf_fault (-eNoMem) = ⟨.oom, false⟩ :=
  (i915_error_to_vmf_fault_total (-eNoMem)).2.1 rfl

/-- C6: with no record for the kind present, a failed first offset-region
allocation forces one reclamation pass and exactly one retry
(`allocCalls = 2`, `reclaims = 1`); if the retry succeeds the operation
succeeds with the new record committed, and if it also fails the
operation fails with the allocator's error and no further reclamation or
retry happens. -/
theorem mmap_offset_attach_retry_once
    (offsets : List Mmo) (t : MmapType) (e1 e2 : Int) (o2 : Nat)
    (hnone : lookup_mmo offsets t = none) :
    (i915_gem_mmap_offset_attach offsets t true ⟨true, .error e1, .ok o2, 0⟩ =
      ⟨.ok ⟨t, o2⟩, offsets ++ [⟨t, o2⟩], 1, 2, false⟩) ∧
    (i915_gem_mmap_offset_attach offsets t true ⟨true, .error e1, .error e2, 0⟩ =
      ⟨.error e2, offsets, 1, 2, false⟩) := by
  constructor
  · unfold i915_gem_mmap_offset_attach
    rw [hnone]
    simp only [Bool.not_true, attach_commit]
    unfold insert_mmo
    rw [show (⟨t, o2⟩ : Mmo).mmap_type = t from rfl, hnone]
    simp
  · unfold i915_gem_mmap_offset_attach
    rw [hnone]
    simp

/-- Witness for C6: an empty registry, kind WriteCombined; the retry
commits offset 7, and a double failure surfaces `-ENOSPC`. -/
theorem mmap_offset_attach_retry_once_witness :
    (i915_gem_mmap_offset_attach [] .wc true ⟨true, .error (-eNoSpc), .ok 7, 0⟩ =
      ⟨.ok ⟨.wc, 7⟩, [⟨.wc, 7⟩], 1, 2, false⟩) ∧
    (i915_gem_mmap_offset_attach [] .wc true ⟨true, .error (-eNoSpc), .error (-eNoSpc), 0⟩ =
      ⟨.error (-eNoSpc), [], 1, 2, false⟩) := by
  have h := mmap_offset_attach_retry_once [] .wc (-eNoSpc) (-eNoSpc) 7 rfl
  simpa using h

/-- C2 counterexample: a device-local object of size 8 with no resident
pages, not purged, write fault, free budget 4, so `2 × size = 16`
exceeds the budget — the claim says no shadow is created here, but
`create_swapto` does create one (the code skips shadow creation in the
opposite case, `2 * size < avail`). -/
theorem create_swapto_budget_counterexample :
    2 * (8 : Nat) > 4 ∧
    (create_swapto ⟨true, true, false, false⟩
        ⟨8, true, false, .willneed, 4, none⟩ true true).shadow ≠ none := by
  decide

/-- C2 (amended): for a device-local object with no resident pages and
not purged, faulted with write intent and with shadow creation enabled
and the shmem allocation succeeding: when `2 × size` is below the home
region's free budget no shadow is created, and when `2 × size` is at
least the free budget a shadow is created and installed as the object's
`swapto` target sharing its reservation. -/
theorem create_swapto_budget
    (cfg : SwapCfg) (obj : SwapObj) (shmemOk : Bool)
    (hcfg : cfg.chickenMmapSwapCreate = true)
    (hl : obj.isLmem = true) (hp : obj.hasPages = false)
    (hm : obj.madv ≠ .purged) (hs : shmemOk = true) :
    (2 * obj.size < obj.regionAvail →
      create_swapto cfg obj true shmemOk = ⟨obj, none⟩) ∧
    (obj.regionAvail ≤ 2 * obj.size →
      ∃ s : SwapShadow,
        create_swapto cfg obj true shmemOk = ⟨{ obj with swapto := some s }, some s⟩ ∧
        s.sharesResv = true ∧ s.cpuClear = true ∧
        s.size = (if cfg.hasFlatCcs ∧ ¬cfg.gtWedged then
            obj.size + obj.size >>> 8 else obj.size)) := by
  constructor
  · intro hbudget
    unfold create_swapto
    rw [if_neg (by simp [hcfg]), if_neg (by simp [hl]),
        if_neg (by simp [hp, hm]), if_pos ⟨rfl, hbudget⟩]
  · intro hbudget
    refine ⟨⟨if cfg.hasFlatCcs ∧ ¬cfg.gtWedged then
        obj.size + obj.size >>> 8 else obj.size, .willneed, true, true⟩, ?_, rfl, rfl, rfl⟩
    unfold create_swapto
    rw [if_neg (by simp [hcfg]), if_neg (by simp [hl]),
        if_neg (by simp [hp, hm]), if_neg (by omega), if_neg (by simp [hs])]

/-- Witness for C2 (amended): size 8, budget 100 leaves no shadow; the
budget side is exercised by the amended theorem at that input. -/
theorem create_swapto_budget_witness :
    create_swapto ⟨true, true, false, false⟩
        ⟨8, true, false, .willneed, 100, none⟩ true true =
      ⟨⟨8, true, false, .willneed, 100, none⟩, none⟩ :=
  (create_swapto_budget ⟨true, true, false, false⟩
      ⟨8, true, false, .willneed, 100, none⟩ true rfl rfl rfl (by decide) rfl).1
    (by decide)

/-- C3: for a faulting page inside the object, the computed view contains
the faulting page, its offset is aligned to the effective chunk (the
requested chunk rounded up to the tiling-row granularity for tiled
objects, which divides evenly by the tile row), offset plus size never
exceeds the object's page count, and the size is the effective chunk
clipped to the remaining pages; concretely, a 4096-page tiled object
with 64-page rows, a 256-page chunk and a fault at page 300 yields
offset 256 and size `min(256, 4096 − 256) = 256`. -/
theorem compute_partial_view_sound
    (obj : TiledObj) (page_offset chunk : Nat)
    (hchunk : 0 < chunk) (hc32 : chunk < 2 ^ 31)
    (ht32 : obj.tileRowPages < 2 ^ 31)
    (hp : page_offset < obj.sizeBytes >>> PAGE_SHIFT)
    (hn : obj.sizeBytes >>> PAGE_SHIFT < 2 ^ 32) :
    (compute_partial_view obj page_offset chunk).vofs ≤ page_offset ∧
    page_offset < (compute_partial_view obj page_offset chunk).vofs +
      (compute_partial_view obj page_offset chunk).vsize ∧
    (compute_partial_view obj page_offset chunk).vofs +
      (compute_partial_view obj page_offset chunk).vsize ≤
      obj.sizeBytes >>> PAGE_SHIFT ∧
    (compute_partial_view obj page_offset chunk).vofs %
      effective_chunk obj chunk = 0 ∧
    (obj.tiled = true → effective_chunk obj chunk %
      (if obj.tileRowPages = 0 then 1 else obj.tileRowPages) = 0) ∧
    (compute_partial_view obj page_offset chunk).vsize =
      min (effective_chunk obj chunk)
        (obj.sizeBytes >>> PAGE_SHIFT -
          (compute_partial_view obj page_offset chunk).vofs) ∧
    compute_partial_view ⟨4096 * 4096, true, 64⟩ 300 256 =
      ⟨.windowed, 256, 256⟩ := by
  obtain ⟨hecpos, hec32, hecmod⟩ :=
    effective_chunk_facts obj chunk hchunk hc32 ht32
  rw [compute_partial_view_eq]
  dsimp only
  have hmod : page_offset % effective_chunk obj chunk <
      effective_chunk obj chunk := Nat.mod_lt _ hecpos
  have hrd : rounddown page_offset (effective_chunk obj chunk) =
      page_offset - page_offset % effective_chunk obj chunk := rfl
  have hsub32 : obj.sizeBytes >>> PAGE_SHIFT -
      rounddown page_offset (effective_chunk obj chunk) < 2 ^ 32 := by omega
  rw [Nat.mod_eq_of_lt hsub32]
  refine ⟨by omega, by omega, by omega, rounddown_mod _ _, hecmod, rfl, by decide⟩

/-- Witness for C3: the scenario object itself — 4096 pages, tiled with
64-page rows, chunk 256, fault at page 300. -/
theorem compute_partial_view_sound_witness :
    (compute_partial_view ⟨4096 * 4096, true, 64⟩ 300 256).vofs ≤ 300 ∧
    300 < (compute_partial_view ⟨4096 * 4096, true, 64⟩ 300 256).vofs +
      (compute_partial_view ⟨4096 * 4096, true, 64⟩ 300 256).vsize :=
  ⟨(compute_partial_view_sound ⟨4096 * 4096, true, 64⟩ 300 256
      (by decide) (by decide) (by decide) (by decide) (by decide)).1,
   (compute_partial_view_sound ⟨4096 * 4096, true, 64⟩ 300 256
      (by decide) (by decide) (by decide) (by decide) (by decide)).2.1⟩

/-- C10: an object whose page count is at most the effective chunk (the
requested chunk after tile-row rounding) degenerates to a full-object
NORMAL view: offset 0 and size equal to the whole page count. -/
theorem compute_partial_view_full_cover
    (obj : TiledObj) (page_offset chunk : Nat)
    (hp : page_offset < obj.sizeBytes >>> PAGE_SHIFT)
    (hn : obj.sizeBytes >>> PAGE_SHIFT < 2 ^ 32)
    (hcover : obj.sizeBytes >>> PAGE_SHIFT ≤ effective_chunk obj chunk) :
    compute_partial_view obj page_offset chunk =
      ⟨.normal, 0, obj.sizeBytes >>> PAGE_SHIFT⟩ := by
  rw [compute_partial_view_eq]
  have hpec : page_offset < effective_chunk obj chunk := lt_of_lt_of_le hp hcover
  have h0 : rounddown page_offset (effective_chunk obj chunk) = 0 := by
    unfold rounddown
    rw [Nat.mod_eq_of_lt hpec]
    omega
  rw [h0, if_pos hcover, Nat.sub_zero, Nat.mod_eq_of_lt hn,
    Nat.min_eq_right hcover]

/-- Witness for C10: a 4-page untiled object with a 256-page chunk and a
fault at page 3 yields the full-object NORMAL view. -/
theorem compute_partial_view_full_cover_witness :
    compute_partial_view ⟨4 * 4096, false, 0⟩ 3 256 = ⟨.normal, 0, 4⟩ :=
  compute_partial_view_full_cover ⟨4 * 4096, false, 0⟩ 3 256
    (by decide) (by decide) (by decide)

theorem revoke_foldl (flags : List Bool) (b : Bool) :
    flags.foldl i915_vma_revoke_mmap (flags.count true, b) =
      (0, if flags.count true = 0 then b else false) := by
  induction flags generalizing b with
  | nil => simp
  | cons f rest ih =>
    cases f with
    | false =>
      have hc : (false :: rest).count true = rest.count true := by
        simp [List.count_cons]
      rw [hc, List.foldl_cons]
      have hstep : i915_vma_revoke_mmap (rest.count true, b) false =
          (rest.count true, b) := rfl
      rw [hstep, ih]
    | true =>
      have hc : (true :: rest).count true = rest.count true + 1 := by
        simp [List.count_cons]
      rw [hc, List.foldl_cons]
      have hstep : i915_vma_revoke_mmap (rest.count true + 1, b) true =
          (rest.count true, if rest.count true = 0 then false else b) := by
        unfold i915_vma_revoke_mmap
        simp
      rw [hstep]
      by_cases h0 : rest.count true = 0
      · rw [if_pos h0, ih, if_pos h0]
        simp [h0]
      · rw [if_neg h0, ih, if_neg h0]
        simp [h0]

/-- C8: release of all GTT mappings is idempotent.  For a well-formed
object (userfault counter equal to the number of GGTT vmas with the
userfault flag set), the first call drives the counter to exactly 0 and,
when the counter was positive, takes the object off the device-wide
revocation list; a second call returns early on the zero counter and
changes nothing, so the counter is never decremented below zero. -/
theorem release_mmap_gtt_idempotent
    (st : GttMapState)
    (hwf : st.userfault_count = st.vmas.count true) :
    (i915_gem_object_release_mmap_gtt st).userfault_count = 0 ∧
    (0 < st.userfault_count →
      (i915_gem_object_release_mmap_gtt st).onList = false) ∧
    i915_gem_object_release_mmap_gtt (i915_gem_object_release_mmap_gtt st) =
      i915_gem_object_release_mmap_gtt st := by
  by_cases h0 : st.userfault_count = 0
  · have hrel : i915_gem_object_release_mmap_gtt st = st := by
      unfold i915_gem_object_release_mmap_gtt
      rw [if_pos h0]
    rw [hrel]
    exact ⟨h0, fun h => absurd h0 (by omega), by
      unfold i915_gem_object_release_mmap_gtt
      rw [if_pos h0]⟩
  · have hrel : i915_gem_object_release_mmap_gtt st =
        ⟨st.vmas.map (fun _ => false), 0, false⟩ := by
      unfold i915_gem_object_release_mmap_gtt
        i915_gem_object_release_mmap_gtt_locked
      rw [if_neg h0]
      have hf := revoke_foldl st.vmas st.onList
      rw [← hwf] at hf
      rw [hf, if_neg (by omega)]
    rw [hrel]
    refine ⟨rfl, fun _ => rfl, ?_⟩
    unfold i915_gem_object_release_mmap_gtt
    rw [if_pos rfl]

/-- Witness for C8: the spec scenario, an object with two userfault GGTT
vmas and `userfault_count = 2` on the revocation list. -/
theorem release_mmap_gtt_idempotent_witness :
    (i915_gem_object_release_mmap_gtt ⟨[true, true], 2, true⟩).userfault_count = 0 ∧
    (i915_gem_object_release_mmap_gtt ⟨[true, true], 2, true⟩).onList = false ∧
    i915_gem_object_release_mmap_gtt
        (i915_gem_object_release_mmap_gtt ⟨[true, true], 2, true⟩) =
      i915_gem_object_release_mmap_gtt ⟨[true, true], 2, true⟩ :=
  ⟨(release_mmap_gtt_idempotent ⟨[true, true], 2, true⟩ (by decide)).1,
   (release_mmap_gtt_idempotent ⟨[true, true], 2, true⟩ (by decide)).2.1 (by decide),
   (release_mmap_gtt_idempotent ⟨[true, true], 2, true⟩ (by decide)).2.2⟩

/-- C9: the generic teardown invoked from `i915_gem_object_release_mmap`
unmaps every registry record of a non-Aperture kind and never an
Aperture (GTT) record; the aperture side of the combined release is
exactly the GTT revocation path. -/
theorem release_mmap_offset_skips_aperture
    (st : GttMapState) (offsets : List Mmo) (m : Mmo)
    (hm : m ∈ offsets) :
    (m.mmap_type ≠ .gtt →
      m ∈ (i915_gem_object_release_mmap st offsets).2) ∧
    (m.mmap_type = .gtt →
      m ∉ (i915_gem_object_release_mmap st offsets).2) ∧
    (i915_gem_object_release_mmap st offsets).1 =
      i915_gem_object_release_mmap_gtt st := by
  unfold i915_gem_object_release_mmap i915_gem_object_release_mmap_offset
  rw [if_neg (by simp)]
  refine ⟨fun hne => ?_, fun heq => ?_, rfl⟩
  · exact List.mem_filter.2 ⟨hm, by simp [hne]⟩
  · intro hmem
    have hdec := (List.mem_filter.1 hmem).2
    simp [heq] at hdec

/-- Witness for C9: a registry with one WriteBack and one Aperture
record; the WriteBack record is unmapped, the Aperture one is not. -/
theorem release_mmap_offset_skips_aperture_witness :
    (⟨.wb, 1⟩ : Mmo) ∈
      (i915_gem_object_release_mmap ⟨[], 0, false⟩ [⟨.wb, 1⟩, ⟨.gtt, 2⟩]).2 ∧
    (⟨.gtt, 2⟩ : Mmo) ∉
      (i915_gem_object_release_mmap ⟨[], 0, false⟩ [⟨.wb, 1⟩, ⟨.gtt, 2⟩]).2 :=
  ⟨(release_mmap_offset_skips_aperture ⟨[], 0, false⟩ [⟨.wb, 1⟩, ⟨.gtt, 2⟩]
      ⟨.wb, 1⟩ (by decide)).1 (by decide),
   (release_mmap_offset_skips_aperture ⟨[], 0, false⟩ [⟨.wb, 1⟩, ⟨.gtt, 2⟩]
      ⟨.gtt, 2⟩ (by decide)).2.1 rfl⟩

theorem gtt_merge_none (x : GttEffects) : GttEffects.none.merge x = x := by
  unfold GttEffects.merge GttEffects.none
  simp

theorem vm_fault_gtt_body_readonly (obj : FaultObj) (hasLLC : Bool)
    (hro : obj.readonly = true) (st : Nat × Bool) (e : GttEnv) :
    vm_fault_gtt_body obj true hasLLC st e =
      (if e.lockErr ≠ 0 then e.lockErr else -eFault, GttEffects.none, st) := by
  unfold vm_fault_gtt_body
  by_cases hl : e.lockErr ≠ 0
  · rw [if_pos hl, if_pos hl]
  · rw [if_neg hl, if_neg hl, if_pos ⟨hro, rfl⟩]

theorem vm_fault_gtt_loop_readonly (obj : FaultObj) (hasLLC : Bool)
    (hro : obj.readonly = true) (st : Nat × Bool) (envs : List GttEnv) :
    (vm_fault_gtt_loop obj true hasLLC st envs).2.1 = GttEffects.none ∧
    (vm_fault_gtt_loop obj true hasLLC st envs).2.2 = st := by
  induction envs generalizing st with
  | nil => exact ⟨rfl, rfl⟩
  | cons e rest ih =>
    simp only [vm_fault_gtt_loop, vm_fault_gtt_body_readonly obj hasLLC hro st e]
    by_cases hl : e.lockErr ≠ 0
    · rw [if_pos hl]
      by_cases hd : e.lockErr = -eDeadLk
      · simp only [hd, if_pos rfl]
        by_cases hb : e.backoffErr = 0
        · rw [if_pos hb]
          refine ⟨?_, (ih st).2⟩
          rw [gtt_merge_none]
          exact (ih st).1
        · rw [if_neg hb]
          exact ⟨rfl, rfl⟩
      · rw [if_neg hd]
        exact ⟨rfl, rfl⟩
    · rw [if_neg hl]
      rw [if_neg (by decide : ¬(-eFault = -eDeadLk))]
      exact ⟨rfl, rfl⟩

/-- C4: a write fault on a read-only object is rejected with the
unrecoverable bus-error outcome and populates nothing.  On the direct
(CPU) path `vm_fault_cpu` returns `VM_FAULT_SIGBUS` immediately with no
pinning, remapping or migration for every oracle; on the aperture (GTT)
path the read-only check precedes pinning, binding and remapping for
every retry sequence (no effects, userfault state untouched), and once
the object lock is acquired the outcome is the bus error. -/
theorem readonly_write_fault_rejected
    (obj : FaultObj) (hro : obj.readonly = true)
    (invalidateLmem segmentFound hasLLC shmemOk : Bool)
    (cfg : SwapCfg) (sobj : SwapObj) (envss : List (List CpuEnv))
    (st : Nat × Bool) (e : GttEnv) (envs : List GttEnv)
    (hlock : e.lockErr = 0) :
    vm_fault_cpu obj true invalidateLmem segmentFound cfg sobj shmemOk envss =
      (⟨.sigbus, false⟩, CpuEffects.none) ∧
    (vm_fault_gtt obj true hasLLC st envs).2.1 = GttEffects.none ∧
    (vm_fault_gtt obj true hasLLC st envs).2.2 = st ∧
    (vm_fault_gtt obj true hasLLC st (e :: envs)).1.fault = .sigbus := by
  refine ⟨?_, ?_, ?_, ?_⟩
  · unfold vm_fault_cpu
    rw [if_pos ⟨hro, rfl⟩]
  · exact (vm_fault_gtt_loop_readonly obj hasLLC hro st envs).1
  · exact (vm_fault_gtt_loop_readonly obj hasLLC hro st envs).2
  · unfold vm_fault_gtt
    simp only [vm_fault_gtt_loop, vm_fault_gtt_body_readonly obj hasLLC hro st e]
    rw [if_neg (show ¬(if e.lockErr ≠ 0 then e.lockErr else -eFault) = -eDeadLk
      by rw [hlock]; decide)]
    rw [hlock]
    rfl

/-- Witness for C4: a read-only non-segmented object with a successful
first lock on the GTT path and empty retry fuel. -/
theorem readonly_write_fault_rejected_witness :
    vm_fault_cpu ⟨true, false, true⟩ true false true
        ⟨true, true, false, false⟩ ⟨8, true, false, .willneed, 4, none⟩
        true [] =
      (⟨.sigbus, false⟩, CpuEffects.none) ∧
    (vm_fault_gtt ⟨true, false, true⟩ true true (0, false)
        [⟨0, 0, 0, 0, 0, 0, 0, 0, 0, false⟩]).1.fault = .sigbus :=
  ⟨(readonly_write_fault_rejected ⟨true, false, true⟩ rfl false true true true
      ⟨true, true, false, false⟩ ⟨8, true, false, .willneed, 4, none⟩ []
      (0, false) ⟨0, 0, 0, 0, 0, 0, 0, 0, 0, false⟩ [] rfl).1,
   (readonly_write_fault_rejected ⟨true, false, true⟩ rfl false true true true
      ⟨true, true, false, false⟩ ⟨8, true, false, .willneed, 4, none⟩ []
      (0, false) ⟨0, 0, 0, 0, 0, 0, 0, 0, 0, false⟩ [] rfl).2.2.2⟩

/-- C7: in the direct resolver, a migration the policy marks required
that meets pinned pages fails the fault with the unrecoverable bus-error
outcome, with no page pinning or PTE population and independent of any
remaining retry fuel (not retried); a merely optional migration whose
attempt fails is discarded and resolution proceeds unmigrated to pin and
populate, ending in the no-page outcome. -/
theorem cpu_fault_migration_policy
    (obj : FaultObj) (hro : obj.readonly = false) (write : Bool)
    (cfg : SwapCfg) (sobj : SwapObj) (shmemOk : Bool)
    (me pe re : Int) (rest : List CpuEnv) (restss : List (List CpuEnv))
    (hme : me ≠ 0) (hmd : me ≠ -eDeadLk) :
    vm_fault_cpu obj write false true cfg sobj shmemOk
        ((⟨0, true, true, true, me, pe, re⟩ :: rest) :: restss) =
      (⟨.sigbus, false⟩, CpuEffects.none) ∧
    vm_fault_cpu obj write false true cfg sobj shmemOk
        ((⟨0, true, false, false, me, 0, 0⟩ :: rest) :: restss) =
      (⟨.nopage, false⟩, ⟨true, true, false⟩) := by
  have hguard : ¬(obj.readonly = true ∧ write = true) := by
    rw [hro]
    rintro ⟨h, -⟩
    cases h
  have hseg : ¬(obj.hasSegments = true ∧ ¬(true : Bool) = true) := by
    rintro ⟨-, h⟩
    exact h rfl
  constructor
  · have hbody : vm_fault_cpu_body cfg sobj write shmemOk
        ⟨0, true, true, true, me, pe, re⟩ = (-eFault, CpuEffects.none) := rfl
    have hww : vm_fault_cpu_ww cfg sobj write shmemOk
        (⟨0, true, true, true, me, pe, re⟩ :: rest) =
          (-eFault, CpuEffects.none) := by
      unfold vm_fault_cpu_ww
      rw [hbody]
      rfl
    have hretry : vm_fault_cpu_retry cfg sobj write shmemOk
        ((⟨0, true, true, true, me, pe, re⟩ :: rest) :: restss) =
          (-eFault, CpuEffects.none) := by
      unfold vm_fault_cpu_retry
      rw [hww]
      rfl
    unfold vm_fault_cpu
    rw [if_neg hguard, if_neg (show ¬(false = true) by decide), if_neg hseg,
      hretry]
    rfl
  · have hbody : vm_fault_cpu_body cfg sobj write shmemOk
        ⟨0, true, false, false, me, 0, 0⟩ = (0, ⟨true, true, false⟩) := by
      unfold vm_fault_cpu_body vm_fault_cpu_tail
      simp [hme, hmd]
    have hww : vm_fault_cpu_ww cfg sobj write shmemOk
        (⟨0, true, false, false, me, 0, 0⟩ :: rest) =
          (0, ⟨true, true, false⟩) := by
      unfold vm_fault_cpu_ww
      rw [hbody]
      rfl
    have hretry : vm_fault_cpu_retry cfg sobj write shmemOk
        ((⟨0, true, false, false, me, 0, 0⟩ :: rest) :: restss) =
          (0, ⟨true, true, false⟩) := by
      unfold vm_fault_cpu_retry
      rw [hww]
      rfl
    unfold vm_fault_cpu
    rw [if_neg hguard, if_neg (show ¬(false = true) by decide), if_neg hseg,
      hretry]
    rfl

/-- Witness for C7: a non-read-only lmem object with migration verdicts
from the policy and a failing optional migration error `-EBUSY`. -/
theorem cpu_fault_migration_policy_witness :
    vm_fault_cpu ⟨false, false, true⟩ true false true
        ⟨true, true, false, false⟩ ⟨8, true, false, .willneed, 4, none⟩ true
        [[⟨0, true, true, true, -eBusy, 0, 0⟩]] =
      (⟨.sigbus, false⟩, CpuEffects.none) ∧
    vm_fault_cpu ⟨false, false, true⟩ true false true
        ⟨true, true, false, false⟩ ⟨8, true, false, .willneed, 4, none⟩ true
        [[⟨0, true, false, false, -eBusy, 0, 0⟩]] =
      (⟨.nopage, false⟩, ⟨true, true, false⟩) :=
  ⟨(cpu_fault_migration_policy ⟨false, false, true⟩ rfl true
      ⟨true, true, false, false⟩ ⟨8, true, false, .willneed, 4, none⟩ true
      (-eBusy) 0 0 [] [] (by decide) (by decide)).1,
   (cpu_fault_migration_policy ⟨false, false, true⟩ rfl true
      ⟨true, true, false, false⟩ ⟨8, true, false, .willneed, 4, none⟩ true
      (-eBusy) 0 0 [] [] (by decide) (by decide)).2⟩

end I915Mman
